import Mathlib

/-!
Shallow embedding of the query-safety and execution layer of the
Municipal-Analytics-MCP repository (src/database.ts and src/tools.ts).

Strings are modelled through their character lists.  The JavaScript string
primitives used by the source (`trim`, `toUpperCase`, `startsWith`,
`includes`, the `\bKEYWORD\b` case-insensitive regex test, and the
`^[a-zA-Z_][a-zA-Z0-9_]*$` / `^\d{4}-\d{2}-\d{2}$` anchored regexes) are
embedded below with their ASCII semantics, which is the fragment the
source exercises.
-/

namespace MunicipalMCP

/-- JS `String.prototype.trim` whitespace (ASCII fragment). -/
def jsWhitespace (c : Char) : Bool :=
  c = ' ' || c = '\t' || c = '\n' || c = '\r' || c = '\x0b' || c = '\x0c'

/-- JS `query.trim()`. -/
def jsTrim (s : String) : String :=
  ⟨((s.data.dropWhile jsWhitespace).reverse.dropWhile jsWhitespace).reverse⟩

/-- JS `query.toUpperCase()` (ASCII case mapping). -/
def jsToUpper (s : String) : String :=
  ⟨s.data.map Char.toUpper⟩

/-- JS `s.startsWith(p)`. -/
def jsStartsWith (s p : String) : Bool :=
  p.data.isPrefixOf s.data

/-- Substring occurrence on character lists (JS `s.includes(pat)`). -/
def listContainsSub (pat : List Char) : List Char → Bool
  | [] => pat.isEmpty
  | c :: cs => pat.isPrefixOf (c :: cs) || listContainsSub pat cs

/-- JS `s.includes(pat)`. -/
def jsIncludes (s pat : String) : Bool :=
  listContainsSub pat.data s.data

/-- JS regex word character `\w`, i.e. `[A-Za-z0-9_]`. -/
def isWordChar (c : Char) : Bool :=
  c.isAlpha || c.isDigit || c = '_'

/-- Case-insensitive (ASCII) prefix test on character lists. -/
def isPrefixCI : List Char → List Char → Bool
  | [], _ => true
  | _ :: _, [] => false
  | k :: ks, c :: cs => (c.toUpper == k.toUpper) && isPrefixCI ks cs

/-- After skipping `n` characters of `s`, the next character (if any) is not
a word character — the closing `\b` of the regex. -/
def wordBoundaryAfter (n : Nat) (s : List Char) : Bool :=
  match s.drop n with
  | [] => true
  | c :: _ => !isWordChar c

/-- Scan for a whole-word, case-insensitive occurrence of `kw`.
`prevWord` records whether the character before the current position is a
word character (the opening `\b` requires it not to be). -/
def hasWholeWordAux (kw : List Char) : Bool → List Char → Bool
  | _, [] => false
  | prevWord, c :: cs =>
    (!prevWord && isPrefixCI kw (c :: cs) && wordBoundaryAfter kw.length (c :: cs))
      || hasWholeWordAux kw (isWordChar c) cs

/-- JS `new RegExp(`\\b${keyword}\\b`, 'i').test(s)` for a keyword made of
word characters. -/
def hasWholeWord (kw : String) (s : String) : Bool :=
  hasWholeWordAux kw.data false s.data

/-- The anchored identifier regex `^[a-zA-Z_][a-zA-Z0-9_]*$` used for every
table/column name interpolated into SQL text. -/
def isValidIdentifier (s : String) : Bool :=
  match s.data with
  | [] => false
  | c :: cs => (c.isAlpha || c = '_') && cs.all (fun d => d.isAlpha || d.isDigit || d = '_')

/-- The anchored date regex `^\d{4}-\d{2}-\d{2}$` of `handleQueryByDateRange`. -/
def matchesDateFormat (s : String) : Bool :=
  match s.data with
  | [y1, y2, y3, y4, d1, m1, m2, d2, a1, a2] =>
    y1.isDigit && y2.isDigit && y3.isDigit && y4.isDigit && d1 = '-' &&
    m1.isDigit && m2.isDigit && d2 = '-' && a1.isDigit && a2.isDigit
  | _ => false

/-- JS `query.trim().replace(/;$/, '')` applied after `trim`: drop one
trailing semicolon if present. -/
def stripTrailingSemicolon (s : String) : String :=
  if s.data.getLast? = some ';' then ⟨s.data.dropLast⟩ else s

/-! ### The validator (database.ts, `validateReadOnlyQuery`) -/

def allowedStartTokens : List String := ["SELECT", "WITH", "PRAGMA"]

def forbiddenKeywords : List String :=
  ["INSERT", "UPDATE", "DELETE", "DROP", "ALTER", "CREATE",
   "REPLACE", "TRUNCATE", "ATTACH", "DETACH"]

/-- Source `validateReadOnlyQuery(query)`: a thrown `Error` is modelled as
`.error` with the error's message. -/
def validateReadOnlyQuery (query : String) : Except String Unit :=
  let trimmedQuery := jsToUpper (jsTrim query)
  if !(allowedStartTokens.any (fun p => jsStartsWith trimmedQuery p)) then
    .error ("Only SELECT queries are allowed")
  else
    match forbiddenKeywords.find? (fun kw => hasWholeWord kw query) with
    | some kw => .error ("Query contains forbidden keyword: " ++ kw)
    | none => .ok ()

/-! ### Data model (database.ts) -/

/-- Scalar values carried by rows and bind parameters (text, number, null —
the scalar shapes of the D1 result model). -/
inductive Value where
  | null
  | str (s : String)
  | num (n : Int)
deriving DecidableEq, Repr

/-- The three statically configured logical databases. -/
inductive DatabaseName where
  | holly
  | rockford
  | historical
deriving DecidableEq, Repr

/-- Source `DATABASE_DISPLAY_NAMES`. -/
def databaseDisplayName : DatabaseName → String
  | .holly => "Holly Data Bronze"
  | .rockford => "Rockford"
  | .historical => "Historical Budgets"

/-- The result envelope (`QueryResult`).  Fields that the source leaves
`undefined` on one of the two branches are `Option`s.  `Row` is the row
type delivered by the backend; the executor never inspects rows. -/
structure QueryResult (Row : Type) where
  success : Bool
  data : Option (List Row) := none
  rowCount : Option Nat := none
  truncated : Option Bool := none
  error : Option String := none
  database : Option String := none
deriving DecidableEq, Repr

/-- The D1 binding reached by `db.prepare(sql).bind(...params).all()`:
given the final SQL text and the bind parameters it either delivers a list
of rows or throws (modelled as `.error` with the thrown message). -/
def Backend (Row : Type) : Type :=
  String → List Value → Except String (List Row)

/-! ### The limiter and the executor (database.ts) -/

/-- Source `addLimitIfNeeded(query, limit)`. -/
def addLimitIfNeeded (query : String) (limit : Nat) : String :=
  let upperQuery := jsToUpper query
  if jsStartsWith (jsTrim upperQuery) ("PRAGMA") then
    query
  else if jsIncludes upperQuery ("LIMIT") then
    query
  else
    let trimmedQuery := stripTrailingSemicolon (jsTrim query)
    trimmedQuery ++ " LIMIT " ++ toString limit

/-- Source `executeQuery(env, dbName, query, params)`.

`maxRows` stands for `getMaxRows(env)` (the parsed `MAX_RESULT_ROWS`
binding, default 1000), and `backend` for the D1 binding that
`getDatabase(env, dbName)` resolves.  The `try`/`catch` of the source is
the two `.error` branches: both the validator's throw and a backend throw
become a failure `QueryResult` carrying the message. -/
def executeQuery {Row : Type} (backend : Backend Row) (maxRows : Nat)
    (dbName : DatabaseName) (query : String) (params : List Value) :
    QueryResult Row :=
  match validateReadOnlyQuery query with
  | .error e =>
      { success := false, error := some e,
        database := some (databaseDisplayName dbName) }
  | .ok _ =>
      let limitedQuery := addLimitIfNeeded query (maxRows + 1)
      match backend limitedQuery params with
      | .error e =>
          { success := false, error := some e,
            database := some (databaseDisplayName dbName) }
      | .ok results =>
          let truncated := decide (results.length > maxRows)
          let data := if truncated then results.take maxRows else results
          { success := true, data := some data, rowCount := some data.length,
            truncated := some truncated,
            database := some (databaseDisplayName dbName) }

/-! ### Schema helpers (database.ts) -/

/-- A concrete row shape (`Record<string, unknown>` with scalar values),
used where the source reads a field out of a row. -/
abbrev DBRow : Type := List (String × Value)

/-- JS property access `row[k]`; a missing property (JS `undefined`) is
`none`. -/
def rowField (r : DBRow) (k : String) : Option Value :=
  (r.find? (fun p => p.1 == k)).map (fun p => p.2)

/-- The fixed `sqlite_master` query of `getTables` (exact template
literal, including its newlines and indentation). -/
def tablesQuery : String :=
  "\n    SELECT name, type\n    FROM sqlite_master\n    WHERE type IN ('table', 'view')\n    AND name NOT LIKE 'sqlite_%'\n    AND name NOT LIKE '_cf_%'\n    ORDER BY name\n  "

/-- Source `getTables(env, dbName)`: a failed or data-less result degrades to the
empty list. -/
def getTables {Row : Type} (backend : Backend Row) (maxRows : Nat)
    (dbName : DatabaseName) : List Row :=
  let result := executeQuery backend maxRows dbName tablesQuery []
  if !result.success then []
  else
    match result.data with
    | none => []
    | some d => d

/-- Source `getTableColumns(env, dbName, tableName)`: throws on an invalid table
name, degrades to `[]` on a failed execution. -/
def getTableColumns {Row : Type} (backend : Backend Row) (maxRows : Nat)
    (dbName : DatabaseName) (tableName : String) :
    Except String (List Row) :=
  if !isValidIdentifier tableName then
    .error ("Invalid table name")
  else
    let query := "PRAGMA table_info(\"" ++ tableName ++ "\")"
    let result := executeQuery backend maxRows dbName query []
    if !result.success then .ok []
    else
      match result.data with
      | none => .ok []
      | some d => .ok d

/-- Source `getTableRowCount(env, dbName, tableName)`: throws on an invalid table
name; returns 0 when the execution failed, returned no data, or returned
zero rows; otherwise reads the `count` property of the first row (the
unchecked TS cast is the `rowField` lookup, JS `undefined` being `none`). -/
def getTableRowCount (backend : Backend DBRow) (maxRows : Nat)
    (dbName : DatabaseName) (tableName : String) :
    Except String (Option Value) :=
  if !isValidIdentifier tableName then
    .error ("Invalid table name")
  else
    let query := "SELECT COUNT(*) as count FROM \"" ++ tableName ++ "\""
    let result := executeQuery backend maxRows dbName query []
    if !result.success then .ok (some (Value.num 0))
    else
      match result.data with
      | none => .ok (some (Value.num 0))
      | some [] => .ok (some (Value.num 0))
      | some (r :: _) => .ok (rowField r ("count"))

/-! ### Column-filter builder (database.ts, `buildWhereClause`) -/

/-- The accumulation loop of `buildWhereClause`: one condition fragment
(and, when applicable, one pushed parameter) per surviving filter entry,
in entry order; entries whose column name fails the identifier regex are
skipped. -/
def buildConditions : List (String × Value) → List String × List Value
  | [] => ([], [])
  | (column, value) :: rest =>
    if !isValidIdentifier column then
      buildConditions rest
    else
      let tail := buildConditions rest
      match value with
      | Value.null =>
          (("\"" ++ column ++ "\" IS NULL") :: tail.1, tail.2)
      | Value.str s =>
          if jsIncludes s ("%") then
            (("\"" ++ column ++ "\" LIKE ?") :: tail.1, Value.str s :: tail.2)
          else
            (("\"" ++ column ++ "\" = ?") :: tail.1, Value.str s :: tail.2)
      | Value.num n =>
          (("\"" ++ column ++ "\" = ?") :: tail.1, Value.num n :: tail.2)

/-- Source `buildWhereClause(filters)`.  The `filters` object is modelled as its
ordered entry list (`Object.entries`). -/
def buildWhereClause (filters : List (String × Value)) :
    String × List Value :=
  let built := buildConditions filters
  (if built.1.length > 0 then
      "WHERE " ++ String.intercalate (" AND ") built.1
    else "",
   built.2)

/-! ### Tool handlers (tools.ts)

A handler that `throw`s (`Invalid table name`, `Invalid column name`,
`Invalid date format. Use YYYY-MM-DD`) is modelled as `.error` with the
thrown message; a handler that returns normally is `.ok`.  Caller-supplied
limits are JS numbers, modelled as `Int`. -/

/-- Source `handleGetRecentRecords(dbName, tableName, limit, env)` (tool max 100). -/
def handleGetRecentRecords {Row : Type} (backend : Backend Row)
    (maxRows : Nat) (dbName : DatabaseName) (tableName : String)
    (limit : Int) : Except String (QueryResult Row) :=
  let safeLimit := min (max 1 limit) 100
  if !isValidIdentifier tableName then
    .error ("Invalid table name")
  else
    let query := "SELECT * FROM \"" ++ tableName ++ "\" LIMIT " ++ toString safeLimit
    .ok (executeQuery backend maxRows dbName query [])

/-- Source `handleFilterByColumn(dbName, tableName, filters, limit, env)` (tool
max 500). -/
def handleFilterByColumn {Row : Type} (backend : Backend Row)
    (maxRows : Nat) (dbName : DatabaseName) (tableName : String)
    (filters : List (String × Value)) (limit : Int) :
    Except String (QueryResult Row) :=
  if !isValidIdentifier tableName then
    .error ("Invalid table name")
  else
    let safeLimit := min (max 1 limit) 500
    let built := buildWhereClause filters
    let query := "SELECT * FROM \"" ++ tableName ++ "\" " ++ built.1
      ++ " LIMIT " ++ toString safeLimit
    .ok (executeQuery backend maxRows dbName query built.2)

/-- JS property access on a `ColumnInfo` row through the unchecked
`result.data as unknown as ColumnInfo[]` cast of `getTableColumns`: the
`PRAGMA table_info` rows are trusted to carry string `name`/`type`
fields, so a non-string or missing field degrades to the empty string. -/
def colStringField (r : DBRow) (k : String) : String :=
  match rowField r k with
  | some (Value.str s) => s
  | _ => ""

/-- Source `handleSearchRecords(dbName, tableName, searchTerm, limit, env)`
(tool max 200).  The single `env` binding serves both the
`getTableColumns` metadata fetch and the data fetch, so one `backend`
answers both statements. -/
def handleSearchRecords (backend : Backend DBRow) (maxRows : Nat)
    (dbName : DatabaseName) (tableName : String) (searchTerm : String)
    (limit : Int) : Except String (QueryResult DBRow) :=
  if !isValidIdentifier tableName then
    .error ("Invalid table name")
  else
    match getTableColumns backend maxRows dbName tableName with
    | .error e => .error e
    | .ok columns =>
      let textColumns := columns.filter (fun col =>
        jsIncludes (jsToUpper (colStringField col ("type"))) ("TEXT") ||
        jsIncludes (jsToUpper (colStringField col ("type"))) ("VARCHAR") ||
        jsIncludes (jsToUpper (colStringField col ("type"))) ("CHAR"))
      if textColumns.length = 0 then
        .ok { success := false,
              error := some ("No text columns found in table to search") }
      else
        let conditions := textColumns.map (fun col =>
          "\"" ++ colStringField col ("name") ++ "\" LIKE ? COLLATE NOCASE")
        let params := textColumns.map (fun _ =>
          Value.str ("%" ++ searchTerm ++ "%"))
        let safeLimit := min (max 1 limit) 200
        let query := "SELECT * FROM \"" ++ tableName ++ "\" WHERE "
          ++ String.intercalate (" OR ") conditions
          ++ " LIMIT " ++ toString safeLimit
        .ok (executeQuery backend maxRows dbName query params)

/-- Source `handleGetSummaryStats(dbName, tableName, column, groupBy, env)`
(optional arguments as `Option`; the query strings are the exact template
literals of the source, newlines and indentation included). -/
def handleGetSummaryStats {Row : Type} (backend : Backend Row)
    (maxRows : Nat) (dbName : DatabaseName) (tableName : String)
    (column : Option String) (groupBy : Option String) :
    Except String (QueryResult Row) :=
  if !isValidIdentifier tableName then
    .error ("Invalid table name")
  else
    match column with
    | some col =>
      if !isValidIdentifier col then
        .error ("Invalid column name")
      else
        match groupBy with
        | some g =>
          if !isValidIdentifier g then
            .error ("Invalid group by column name")
          else
            let query := "\n        SELECT\n          \"" ++ g
              ++ "\" as group_value,\n          COUNT(*) as count,\n          SUM(\"" ++ col
              ++ "\") as sum,\n          AVG(\"" ++ col
              ++ "\") as average,\n          MIN(\"" ++ col
              ++ "\") as min,\n          MAX(\"" ++ col
              ++ "\") as max\n        FROM \"" ++ tableName
              ++ "\"\n        GROUP BY \"" ++ g
              ++ "\"\n        ORDER BY count DESC\n        LIMIT 50\n      "
            .ok (executeQuery backend maxRows dbName query [])
        | none =>
            let query := "\n        SELECT\n          COUNT(*) as count,\n          SUM(\"" ++ col
              ++ "\") as sum,\n          AVG(\"" ++ col
              ++ "\") as average,\n          MIN(\"" ++ col
              ++ "\") as min,\n          MAX(\"" ++ col
              ++ "\") as max\n        FROM \"" ++ tableName ++ "\"\n      "
            .ok (executeQuery backend maxRows dbName query [])
    | none =>
        let query := "SELECT COUNT(*) as total_rows FROM \"" ++ tableName ++ "\""
        .ok (executeQuery backend maxRows dbName query [])

/-- Source `handleQueryByDateRange(dbName, tableName, dateColumn, startDate,
endDate, limit, env)` (tool max 500). -/
def handleQueryByDateRange {Row : Type} (backend : Backend Row)
    (maxRows : Nat) (dbName : DatabaseName) (tableName : String)
    (dateColumn : String) (startDate endDate : String) (limit : Int) :
    Except String (QueryResult Row) :=
  if !isValidIdentifier tableName then
    .error ("Invalid table name")
  else if !isValidIdentifier dateColumn then
    .error ("Invalid column name")
  else if !matchesDateFormat startDate || !matchesDateFormat endDate then
    .error ("Invalid date format. Use YYYY-MM-DD")
  else
    let safeLimit := min (max 1 limit) 500
    let query := "\n    SELECT * FROM \"" ++ tableName
      ++ "\"\n    WHERE \"" ++ dateColumn ++ "\" >= ? AND \"" ++ dateColumn
      ++ "\" <= ?\n    ORDER BY \"" ++ dateColumn
      ++ "\" DESC\n    LIMIT " ++ toString safeLimit ++ "\n  "
    .ok (executeQuery backend maxRows dbName query
      [Value.str startDate, Value.str endDate])

/-- Source `handleExecuteQuery(dbName, query, env)`. -/
def handleExecuteQuery {Row : Type} (backend : Backend Row) (maxRows : Nat)
    (dbName : DatabaseName) (query : String) : QueryResult Row :=
  executeQuery backend maxRows dbName query []

/-! ### Dispatch-layer limit resolution (tools.ts, `handleToolCall`) -/

/-- JS `(args.limit as number) || d`: an absent (`undefined`) or zero
(falsy) caller limit falls back to the tool default. -/
def jsOrDefault (v : Option Int) (d : Int) : Int :=
  match v with
  | none => d
  | some n => if n = 0 then d else n

/-- The `case 'get_recent_records'` arm of `handleToolCall` (default 10). -/
def dispatchGetRecentRecords {Row : Type} (backend : Backend Row)
    (maxRows : Nat) (dbName : DatabaseName) (tableName : String)
    (argsLimit : Option Int) : Except String (QueryResult Row) :=
  handleGetRecentRecords backend maxRows dbName tableName
    (jsOrDefault argsLimit 10)

/-- The `case 'filter_by_column'` arm of `handleToolCall` (default 100). -/
def dispatchFilterByColumn {Row : Type} (backend : Backend Row)
    (maxRows : Nat) (dbName : DatabaseName) (tableName : String)
    (filters : List (String × Value)) (argsLimit : Option Int) :
    Except String (QueryResult Row) :=
  handleFilterByColumn backend maxRows dbName tableName filters
    (jsOrDefault argsLimit 100)

/-! ### Instrumented backends used by the theorems -/

/-- A backend that records the SQL text and bind parameters it receives:
its single result row is the executed call itself, so theorems can speak
about exactly what reaches the database. -/
def spyBackend : Backend (String × List Value) :=
  fun sql ps => .ok [(sql, ps)]

/-- A backend that always throws with message `m`. -/
def failBackend (Row : Type) (m : String) : Backend Row :=
  fun _ _ => .error m

/-- A backend that always delivers the fixed row list `rows`. -/
def constBackend {Row : Type} (rows : List Row) : Backend Row :=
  fun _ _ => .ok rows

/-- A sample `PRAGMA table_info` row: one TEXT column named `customer`. -/
def customerTextColumn : DBRow :=
  [("cid", Value.num 0), ("name", Value.str ("customer")),
   ("type", Value.str ("TEXT")), ("notnull", Value.num 0),
   ("dflt_value", Value.null), ("pk", Value.num 0)]

/-- A backend that answers the `orders` metadata query with the one TEXT
column above and records, for any other statement, the SQL text it
received — so theorems about `handleSearchRecords` can observe the
executed search SQL. -/
def searchProbeBackend : Backend DBRow :=
  fun sql _ =>
    if sql = "PRAGMA table_info(\"orders\")" then .ok [customerTextColumn]
    else .ok [[("sql", Value.str sql)]]

/-! ## Claim theorems -/

/-- C1: every SQL string whose trimmed, uppercased form does not start with
SELECT, WITH or PRAGMA is rejected by the validator, and `executeQuery` on
such a string returns a failure `QueryResult` (success=false with an error
message) whose value is the same for every backend — so no backend call is
ever consulted. -/
theorem c1_prefix_rejection (q : String)
    (h : (allowedStartTokens.any fun p => jsStartsWith (jsToUpper (jsTrim q)) p) = false) :
    validateReadOnlyQuery q = .error ("Only SELECT queries are allowed") ∧
    ∀ (Row : Type) (backend : Backend Row) (maxRows : Nat)
      (dbName : DatabaseName) (params : List Value),
      executeQuery backend maxRows dbName q params =
        { success := false, error := some ("Only SELECT queries are allowed"),
          database := some (databaseDisplayName dbName) } := by
  have hv : validateReadOnlyQuery q = .error ("Only SELECT queries are allowed") := by
    simp [validateReadOnlyQuery, h]
  refine ⟨hv, ?_⟩
  intro Row backend maxRows dbName params
  simp [executeQuery, hv]

/-- C1 witness: `execute_query` with `UPDATE orders SET x=1` yields the
failure result, even against a backend that would report being called. -/
theorem c1_prefix_rejection_witness :
    validateReadOnlyQuery ("UPDATE orders SET x=1")
      = .error ("Only SELECT queries are allowed") ∧
    handleExecuteQuery (failBackend DBRow ("backend was called")) 1000
        DatabaseName.holly ("UPDATE orders SET x=1") =
      { success := false, error := some ("Only SELECT queries are allowed"),
        database := some ("Holly Data Bronze") } :=
  ⟨(c1_prefix_rejection _ (by rfl)).1,
   (c1_prefix_rejection _ (by rfl)).2 DBRow (failBackend DBRow ("backend was called"))
     1000 DatabaseName.holly []⟩

/-- C2: a string containing any forbidden keyword as a case-insensitive
whole word is always rejected (whatever its prefix, and even inside string
literals); with an allowed prefix and no whole-word forbidden keyword the
validator accepts, so a keyword occurring only inside a longer identifier
such as `dropout_rate` causes no rejection. -/
theorem c2_keyword_rejection (q : String)
    (h : (forbiddenKeywords.any fun kw => hasWholeWord kw q) = true) :
    (∃ m, validateReadOnlyQuery q = .error m) ∧
    (∀ q', (allowedStartTokens.any fun p => jsStartsWith (jsToUpper (jsTrim q')) p) = true →
       (forbiddenKeywords.any fun kw => hasWholeWord kw q') = false →
       validateReadOnlyQuery q' = .ok ()) ∧
    validateReadOnlyQuery ("SELECT * FROM t; DROP TABLE t")
      = .error ("Query contains forbidden keyword: DROP") ∧
    validateReadOnlyQuery ("SELECT 'I will not DROP it' FROM t")
      = .error ("Query contains forbidden keyword: DROP") ∧
    validateReadOnlyQuery ("SELECT dropout_rate FROM t") = .ok () := by
  refine ⟨?_, ?_, rfl, rfl, rfl⟩
  · unfold validateReadOnlyQuery
    cases hb : (allowedStartTokens.any fun p => jsStartsWith (jsToUpper (jsTrim q)) p) with
    | false => exact ⟨"Only SELECT queries are allowed", by simp [hb]⟩
    | true =>
      cases hf : forbiddenKeywords.find? (fun kw => hasWholeWord kw q) with
      | none =>
        exfalso
        rw [List.find?_eq_none] at hf
        rw [List.any_eq_true] at h
        obtain ⟨kw, hmem, hkw⟩ := h
        exact hf kw hmem hkw
      | some kw =>
        exact ⟨"Query contains forbidden keyword: " ++ kw, by simp [hb, hf]⟩
  · intro q' hp hn
    have hf : forbiddenKeywords.find? (fun kw => hasWholeWord kw q') = none := by
      rw [List.find?_eq_none]
      intro kw hmem hkw
      rw [List.any_eq_false] at hn
      exact hn kw hmem hkw
    simp [validateReadOnlyQuery, hp, hf]

/-- C2 witness: a mixed-case `DROP` after a valid `SELECT` prefix is still
rejected. -/
theorem c2_keyword_rejection_witness :
    ∃ m, validateReadOnlyQuery ("select * from t; dRoP table t") = .error m :=
  (c2_keyword_rejection _ (by rfl)).1

/-- C3: on a successful execution the returned data never exceeds the cap,
`truncated = true` holds iff the executor fetched more rows than the cap,
and the row counts are exactly as the truncation law states: at least
cap+1 fetched rows give `truncated = true` with exactly cap returned rows,
at most cap fetched rows give `truncated = false` with all fetched rows
returned. -/
theorem c3_truncation_law {Row : Type} (backend : Backend Row)
    (maxRows : Nat) (dbName : DatabaseName) (q : String)
    (params : List Value) (results : List Row)
    (hv : validateReadOnlyQuery q = .ok ())
    (hb : backend (addLimitIfNeeded q (maxRows + 1)) params = .ok results) :
    ∃ d, (executeQuery backend maxRows dbName q params).success = true ∧
      (executeQuery backend maxRows dbName q params).data = some d ∧
      (executeQuery backend maxRows dbName q params).rowCount = some d.length ∧
      d.length ≤ maxRows ∧
      ((executeQuery backend maxRows dbName q params).truncated = some true ↔
        maxRows < results.length) ∧
      (maxRows + 1 ≤ results.length →
        (executeQuery backend maxRows dbName q params).truncated = some true ∧
          d.length = maxRows) ∧
      (results.length ≤ maxRows →
        (executeQuery backend maxRows dbName q params).truncated = some false ∧
          d = results) := by
  have he : executeQuery backend maxRows dbName q params =
      { success := true,
        data := some (if decide (results.length > maxRows) then results.take maxRows else results),
        rowCount := some (if decide (results.length > maxRows) then results.take maxRows else results).length,
        truncated := some (decide (results.length > maxRows)),
        database := some (databaseDisplayName dbName) } := by
    simp only [executeQuery, hv, hb]
  by_cases hl : maxRows < results.length
  · have hd : decide (results.length > maxRows) = true := by simpa using hl
    have he2 : executeQuery backend maxRows dbName q params =
        { success := true, data := some (results.take maxRows),
          rowCount := some (results.take maxRows).length,
          truncated := some true,
          database := some (databaseDisplayName dbName) } := by
      rw [he, hd]; simp
    have hlen2 : (results.take maxRows).length = maxRows := by
      rw [List.length_take]; omega
    refine ⟨results.take maxRows, ?_, ?_, ?_, ?_, ?_, ?_, ?_⟩
    · rw [he2]
    · rw [he2]
    · rw [he2]
    · rw [hlen2]
    · rw [he2]; simp [hl]
    · intro _; exact ⟨by rw [he2], hlen2⟩
    · intro hc; omega
  · have hd : decide (results.length > maxRows) = false := by simpa using hl
    have he2 : executeQuery backend maxRows dbName q params =
        { success := true, data := some results,
          rowCount := some results.length,
          truncated := some false,
          database := some (databaseDisplayName dbName) } := by
      rw [he, hd]; simp
    refine ⟨results, ?_, ?_, ?_, ?_, ?_, ?_, ?_⟩
    · rw [he2]
    · rw [he2]
    · rw [he2]
    · omega
    · rw [he2]; simp [hl]
    · intro hc; omega
    · intro _; exact ⟨by rw [he2], rfl⟩

/-- C3 witness: with cap 2 and three fetched rows, two rows come back and
`truncated = true`; the hypotheses hold at this input. -/
theorem c3_truncation_law_witness :
    validateReadOnlyQuery ("SELECT * FROM t") = .ok () ∧
    ∃ d, (executeQuery (constBackend [0, 1, 2]) 2 DatabaseName.holly
            ("SELECT * FROM t") []).success = true ∧
      (executeQuery (constBackend [0, 1, 2]) 2 DatabaseName.holly
            ("SELECT * FROM t") []).data = some d ∧
      (executeQuery (constBackend [0, 1, 2]) 2 DatabaseName.holly
            ("SELECT * FROM t") []).rowCount = some d.length ∧
      d.length ≤ 2 ∧
      ((executeQuery (constBackend [0, 1, 2]) 2 DatabaseName.holly
            ("SELECT * FROM t") []).truncated = some true ↔ 2 < [0, 1, 2].length) ∧
      (2 + 1 ≤ [0, 1, 2].length →
        (executeQuery (constBackend [0, 1, 2]) 2 DatabaseName.holly
            ("SELECT * FROM t") []).truncated = some true ∧ d.length = 2) ∧
      ([0, 1, 2].length ≤ 2 →
        (executeQuery (constBackend [0, 1, 2]) 2 DatabaseName.holly
            ("SELECT * FROM t") []).truncated = some false ∧ d = [0, 1, 2]) :=
  ⟨rfl, c3_truncation_law (constBackend [0, 1, 2]) 2 DatabaseName.holly
    ("SELECT * FROM t") [] [0, 1, 2] (by rfl) (by rfl)⟩

/-- C4 counterexample: `SELECT limitation FROM t` is accepted, is not a
PRAGMA, and contains no whole-word token `LIMIT` — yet the limiter leaves
it unmodified (the code's check is a plain substring test, which the
identifier `limitation` satisfies), so the executed SQL carries no
appended `LIMIT 1001`, contradicting the claim. -/
theorem c4_append_limit_counterexample :
    validateReadOnlyQuery ("SELECT limitation FROM t") = .ok () ∧
    hasWholeWord ("LIMIT") ("SELECT limitation FROM t") = false ∧
    jsStartsWith (jsTrim (jsToUpper ("SELECT limitation FROM t"))) ("PRAGMA") = false ∧
    addLimitIfNeeded ("SELECT limitation FROM t") 1001 = "SELECT limitation FROM t" ∧
    executeQuery spyBackend 1000 DatabaseName.holly ("SELECT limitation FROM t") [] =
      { success := true, data := some [("SELECT limitation FROM t", [])],
        rowCount := some 1, truncated := some false,
        database := some ("Holly Data Bronze") } ∧
    ("SELECT limitation FROM t" : String) ≠ "SELECT limitation FROM t LIMIT 1001" := by
  refine ⟨rfl, rfl, rfl, rfl, rfl, by decide⟩

/-- C4 amended: for every accepted statement that is not a PRAGMA and does
not already contain `LIMIT` as a case-insensitive substring, the executed
SQL is the trimmed statement with a single trailing semicolon stripped and
exactly one `LIMIT <cap+1>` appended; PRAGMA statements and statements
whose uppercased text contains the substring `LIMIT` pass through
unmodified, and the executor always hands the backend
`addLimitIfNeeded query (cap+1)`. -/
theorem c4_append_limit_amended (cap : Nat) :
    (∀ q, jsStartsWith (jsTrim (jsToUpper q)) ("PRAGMA") = false →
       jsIncludes (jsToUpper q) ("LIMIT") = false →
       addLimitIfNeeded q cap =
         stripTrailingSemicolon (jsTrim q) ++ " LIMIT " ++ toString cap) ∧
    (∀ q, jsStartsWith (jsTrim (jsToUpper q)) ("PRAGMA") = true →
       addLimitIfNeeded q cap = q) ∧
    (∀ q, jsIncludes (jsToUpper q) ("LIMIT") = true → addLimitIfNeeded q cap = q) ∧
    (∀ (maxRows : Nat) (dbName : DatabaseName) (q : String) (params : List Value),
       1 ≤ maxRows → validateReadOnlyQuery q = .ok () →
       executeQuery spyBackend maxRows dbName q params =
         { success := true,
           data := some [(addLimitIfNeeded q (maxRows + 1), params)],
           rowCount := some 1, truncated := some false,
           database := some (databaseDisplayName dbName) }) := by
  refine ⟨?_, ?_, ?_, ?_⟩
  · intro q hp hl
    simp [addLimitIfNeeded, hp, hl]
  · intro q hp
    simp [addLimitIfNeeded, hp]
  · intro q hl
    simp [addLimitIfNeeded, hl]
  · intro maxRows dbName q params hm hv
    have h0 : ¬maxRows = 0 := by omega
    simp [executeQuery, hv, spyBackend, h0]

/-- C4 witness: the three limiter behaviours at concrete statements — the
semicolon-stripped append, the PRAGMA passthrough, and the explicit-LIMIT
passthrough. -/
theorem c4_append_limit_amended_witness :
    addLimitIfNeeded ("SELECT * FROM t;") 1001 = "SELECT * FROM t LIMIT 1001" ∧
    addLimitIfNeeded ("PRAGMA table_info(\"x\")") 1001 = "PRAGMA table_info(\"x\")" ∧
    addLimitIfNeeded ("SELECT * FROM t LIMIT 5") 1001 = "SELECT * FROM t LIMIT 5" :=
  ⟨by rw [(c4_append_limit_amended 1001).1 ("SELECT * FROM t;") (by rfl) (by rfl)]; rfl,
   (c4_append_limit_amended 1001).2.1 ("PRAGMA table_info(\"x\")") (by rfl),
   (c4_append_limit_amended 1001).2.2.1 ("SELECT * FROM t LIMIT 5") (by rfl)⟩

/-- C5 counterexample: two public tool operations reject an identifier by
throwing (`.error` models the thrown `Error`) instead of returning a
discriminated success/failure `QueryResult`, contradicting the claim that
no public operation lets an exception cross its boundary. -/
theorem c5_no_throw_counterexample :
    handleGetRecentRecords spyBackend 1000 DatabaseName.holly ("1bad") 10 =
      .error ("Invalid table name") ∧
    handleGetSummaryStats spyBackend 1000 DatabaseName.holly ("t")
        (some ("1bad")) none = .error ("Invalid column name") := by
  exact ⟨rfl, rfl⟩

/-- C5 amended: the executor itself never lets a fault escape — a
validator rejection and a backend throw are both caught and surfaced as a
failure `QueryResult` with the fault's message — while tool-level handlers
reject a failing table/column identifier by throwing, which the dispatch
layer above the core converts to a protocol error. -/
theorem c5_no_throw_amended {Row : Type} (backend : Backend Row)
    (maxRows : Nat) (dbName : DatabaseName) (q : String) (params : List Value) :
    (∀ m, validateReadOnlyQuery q = .error m →
       executeQuery backend maxRows dbName q params =
         { success := false, error := some m,
           database := some (databaseDisplayName dbName) }) ∧
    (∀ m, validateReadOnlyQuery q = .ok () →
       backend (addLimitIfNeeded q (maxRows + 1)) params = .error m →
       executeQuery backend maxRows dbName q params =
         { success := false, error := some m,
           database := some (databaseDisplayName dbName) }) ∧
    (∀ t, isValidIdentifier t = false →
       handleGetRecentRecords backend maxRows dbName t 10 =
         .error ("Invalid table name")) := by
  refine ⟨?_, ?_, ?_⟩
  · intro m hv
    simp [executeQuery, hv]
  · intro m hv hb
    simp [executeQuery, hv, hb]
  · intro t ht
    simp [handleGetRecentRecords, ht]

/-- C5 witness: the executor catches a backend fault on a valid query and
returns it as a failure result. -/
theorem c5_no_throw_amended_witness :
    executeQuery (failBackend DBRow ("D1_ERROR: no such table: t")) 1000
        DatabaseName.rockford ("SELECT * FROM t") [] =
      { success := false, error := some ("D1_ERROR: no such table: t"),
        database := some ("Rockford") } :=
  (c5_no_throw_amended (failBackend DBRow ("D1_ERROR: no such table: t")) 1000
      DatabaseName.rockford ("SELECT * FROM t") []).2.1
    ("D1_ERROR: no such table: t") (by rfl) (by rfl)

/-- C6 counterexample: `filter_by_column` on `orders` with
`{"region": "%North%"}` and requested limit 1000 does clamp to 500, but
the SQL that reaches the backend ends in the builder's own `LIMIT 500` —
not the `LIMIT 501` the claim states — because the builder's query already
contains `LIMIT` and is passed through unmodified. -/
theorem c6_filter_scenario_counterexample :
    dispatchFilterByColumn spyBackend 1000 DatabaseName.holly ("orders")
        [("region", Value.str ("%North%"))] (some 1000) =
      .ok { success := true,
            data := some
              [("SELECT * FROM \"orders\" WHERE \"region\" LIKE ? LIMIT 500",
                [Value.str ("%North%")])],
            rowCount := some 1, truncated := some false,
            database := some ("Holly Data Bronze") } ∧
    ("SELECT * FROM \"orders\" WHERE \"region\" LIKE ? LIMIT 500" : String) ≠
      "SELECT * FROM \"orders\" WHERE \"region\" LIKE ? LIMIT 501" := by
  exact ⟨rfl, by decide⟩

/-- C6 amended: in the scenario the effective limit clamps to 500 and the
SQL executed against the backend is exactly
`SELECT * FROM "orders" WHERE "region" LIKE ? LIMIT 500` with the single
bind parameter `%North%`; the executor's `cap+1` append never fires
because the built query already contains `LIMIT`. -/
theorem c6_filter_scenario_amended :
    min (max 1 (jsOrDefault (some 1000) 100)) 500 = 500 ∧
    dispatchFilterByColumn spyBackend 1000 DatabaseName.holly ("orders")
        [("region", Value.str ("%North%"))] (some 1000) =
      .ok { success := true,
            data := some
              [("SELECT * FROM \"orders\" WHERE \"region\" LIKE ? LIMIT 500",
                [Value.str ("%North%")])],
            rowCount := some 1, truncated := some false,
            database := some ("Holly Data Bronze") } ∧
    addLimitIfNeeded ("SELECT * FROM \"orders\" WHERE \"region\" LIKE ? LIMIT 500")
        1001 = "SELECT * FROM \"orders\" WHERE \"region\" LIKE ? LIMIT 500" := by
  exact ⟨rfl, rfl, rfl⟩

/-- C7 counterexample: a caller-requested limit of 0 on `filter_by_column`
is JavaScript-falsy at the dispatch layer, so it is replaced by the tool
default 100 before clamping — the executed SQL carries `LIMIT 100`, not
the `LIMIT 1` an effective cap of 1 would give. -/
theorem c7_limit_clamp_counterexample :
    dispatchFilterByColumn spyBackend 1000 DatabaseName.holly ("orders") []
        (some 0) =
      .ok { success := true,
            data := some [("SELECT * FROM \"orders\"  LIMIT 100", [])],
            rowCount := some 1, truncated := some false,
            database := some ("Holly Data Bronze") } ∧
    jsOrDefault (some 0) 100 = 100 ∧
    ("SELECT * FROM \"orders\"  LIMIT 100" : String) ≠
      "SELECT * FROM \"orders\"  LIMIT 1" := by
  exact ⟨rfl, rfl, by decide⟩

/-- C7 amended: each limit-taking handler behaves exactly as if called
with the effective cap `min(requested, tool maximum)`, with requested
values below 1 clamped up to 1 (tool maxima: 100 for recent records, 500
for column filters and date ranges, 200 for text search — the latter
proven for every backend, table and search term); at the dispatch layer,
however, an absent limit and a caller-requested 0 are both falsy and fall
back to the tool default before clamping, so a requested 0 yields the
default, not 1. -/
theorem c7_limit_clamp_amended (l : Int) :
    (handleFilterByColumn spyBackend 1000 DatabaseName.holly ("orders") [] l =
       handleFilterByColumn spyBackend 1000 DatabaseName.holly ("orders") []
         (if l < 1 then 1 else min l 500)) ∧
    (handleGetRecentRecords spyBackend 1000 DatabaseName.holly ("orders") l =
       handleGetRecentRecords spyBackend 1000 DatabaseName.holly ("orders")
         (if l < 1 then 1 else min l 100)) ∧
    (handleQueryByDateRange spyBackend 1000 DatabaseName.holly ("orders") ("d")
        ("2024-01-01") ("2024-12-31") l =
       handleQueryByDateRange spyBackend 1000 DatabaseName.holly ("orders") ("d")
        ("2024-01-01") ("2024-12-31") (if l < 1 then 1 else min l 500)) ∧
    (∀ (backend : Backend DBRow) (maxRows : Nat) (dbName : DatabaseName)
       (tableName searchTerm : String),
       handleSearchRecords backend maxRows dbName tableName searchTerm l =
         handleSearchRecords backend maxRows dbName tableName searchTerm
           (if l < 1 then 1 else min l 200)) ∧
    (handleSearchRecords searchProbeBackend 1000 DatabaseName.holly ("orders")
        ("Smith") 1000 =
      .ok { success := true,
            data := some [[("sql",
              Value.str ("SELECT * FROM \"orders\" WHERE \"customer\" LIKE ? COLLATE NOCASE LIMIT 200"))]],
            rowCount := some 1, truncated := some false,
            database := some ("Holly Data Bronze") }) ∧
    jsOrDefault none 100 = 100 ∧ jsOrDefault (some 0) 100 = 100 := by
  have h500 : min (max 1 l) 500 = min (max 1 (if l < 1 then 1 else min l 500)) 500 := by
    split_ifs <;> omega
  have h100 : min (max 1 l) 100 = min (max 1 (if l < 1 then 1 else min l 100)) 100 := by
    split_ifs <;> omega
  have h200 : min (max 1 l) 200 = min (max 1 (if l < 1 then 1 else min l 200)) 200 := by
    split_ifs <;> omega
  refine ⟨?_, ?_, ?_, ?_, rfl, rfl, rfl⟩
  · simp only [handleFilterByColumn, h500]
  · simp only [handleGetRecentRecords, h100]
  · simp only [handleQueryByDateRange, h500]
  · intro backend maxRows dbName tableName searchTerm
    simp only [handleSearchRecords, h200]

/-- C8: the column-filter builder emits `IS NULL` with no parameter for a
null value, `LIKE ?` with the raw value for a string containing `%`, and
`= ?` otherwise; entries with invalid column names are silently dropped;
surviving conditions are joined with AND under one `WHERE`; an empty or
fully dropped filter set yields an empty clause. -/
theorem c8_where_builder :
    (∀ column v rest, isValidIdentifier column = false →
       buildConditions ((column, v) :: rest) = buildConditions rest) ∧
    (∀ column rest, isValidIdentifier column = true →
       buildConditions ((column, Value.null) :: rest) =
         (("\"" ++ column ++ "\" IS NULL") :: (buildConditions rest).1,
          (buildConditions rest).2)) ∧
    (∀ column s rest, isValidIdentifier column = true → jsIncludes s ("%") = true →
       buildConditions ((column, Value.str s) :: rest) =
         (("\"" ++ column ++ "\" LIKE ?") :: (buildConditions rest).1,
          Value.str s :: (buildConditions rest).2)) ∧
    (∀ column s rest, isValidIdentifier column = true → jsIncludes s ("%") = false →
       buildConditions ((column, Value.str s) :: rest) =
         (("\"" ++ column ++ "\" = ?") :: (buildConditions rest).1,
          Value.str s :: (buildConditions rest).2)) ∧
    (∀ column n rest, isValidIdentifier column = true →
       buildConditions ((column, Value.num n) :: rest) =
         (("\"" ++ column ++ "\" = ?") :: (buildConditions rest).1,
          Value.num n :: (buildConditions rest).2)) ∧
    (∀ filters, (buildConditions filters).1 = [] →
       buildWhereClause filters = ("", (buildConditions filters).2)) ∧
    (∀ filters, (buildConditions filters).1 ≠ [] →
       buildWhereClause filters =
         ("WHERE " ++ String.intercalate (" AND ") (buildConditions filters).1,
          (buildConditions filters).2)) ∧
    buildWhereClause [] = ("", []) ∧
    buildWhereClause [("1bad", Value.str ("x"))] = ("", []) ∧
    buildWhereClause [("name", Value.str ("%Smith%")), ("status", Value.null)] =
      ("WHERE \"name\" LIKE ? AND \"status\" IS NULL", [Value.str ("%Smith%")]) := by
  refine ⟨?_, ?_, ?_, ?_, ?_, ?_, ?_, rfl, rfl, rfl⟩
  · intro column v rest h
    simp [buildConditions, h]
  · intro column rest h
    simp [buildConditions, h]
  · intro column s rest h hs
    simp [buildConditions, h, hs]
  · intro column s rest h hs
    simp [buildConditions, h, hs]
  · intro column n rest h
    simp [buildConditions, h]
  · intro filters h
    simp [buildWhereClause, h]
  · intro filters h
    have hlen : 0 < (buildConditions filters).1.length := by
      cases hc : (buildConditions filters).1 with
      | nil => exact absurd hc h
      | cons a t => simp
    simp [buildWhereClause, hlen]

/-- C8 witness: the three claim examples, derived from the general
builder theorem. -/
theorem c8_where_builder_witness :
    buildConditions [("name", Value.str ("%Smith%"))] =
      (["\"name\" LIKE ?"], [Value.str ("%Smith%")]) ∧
    buildConditions [("status", Value.null)] = (["\"status\" IS NULL"], []) ∧
    buildConditions [("1bad", Value.str ("x"))] = ([], []) := by
  refine ⟨?_, ?_, ?_⟩
  · rw [c8_where_builder.2.2.1 ("name") ("%Smith%") [] (by rfl) (by rfl)]; rfl
  · rw [c8_where_builder.2.1 ("status") [] (by rfl)]; rfl
  · rw [c8_where_builder.1 ("1bad") (Value.str ("x")) [] (by rfl)]; rfl

/-- C9: with valid table and date-column identifiers, the date-range
builder rejects — identically for every backend, hence before any backend
access — exactly those boundary strings failing `^\d{4}-\d{2}-\d{2}$`;
`2024-1-1` fails the pattern while the calendar-invalid `2024-13-01`
matches it and is accepted by format validation. -/
theorem c9_date_format {Row : Type} (backend : Backend Row) (maxRows : Nat)
    (dbName : DatabaseName) (table col s e : String) (l : Int)
    (ht : isValidIdentifier table = true) (hc : isValidIdentifier col = true) :
    ((matchesDateFormat s = false ∨ matchesDateFormat e = false) →
       handleQueryByDateRange backend maxRows dbName table col s e l =
         .error ("Invalid date format. Use YYYY-MM-DD")) ∧
    (matchesDateFormat s = true → matchesDateFormat e = true →
       ∃ r, handleQueryByDateRange backend maxRows dbName table col s e l = .ok r) ∧
    matchesDateFormat ("2024-13-01") = true ∧
    matchesDateFormat ("2024-1-1") = false ∧
    (∃ r, handleQueryByDateRange spyBackend 1000 DatabaseName.holly ("orders")
        ("d") ("2024-13-01") ("2024-13-01") 100 = .ok r ∧ r.success = true) := by
  refine ⟨?_, ?_, rfl, rfl, ⟨_, rfl, rfl⟩⟩
  · intro h
    rcases h with h | h
    · simp [handleQueryByDateRange, ht, hc, h]
    · simp [handleQueryByDateRange, ht, hc, h]
  · intro hs he
    simp [handleQueryByDateRange, ht, hc, hs, he]

/-- C9 witness: a wrong-digit-count start date is rejected with the date
format error. -/
theorem c9_date_format_witness :
    handleQueryByDateRange (failBackend DBRow ("backend was called")) 1000
        DatabaseName.holly ("orders") ("d") ("2024-1-1") ("2024-12-31") 100 =
      .error ("Invalid date format. Use YYYY-MM-DD") :=
  (c9_date_format (failBackend DBRow ("backend was called")) 1000
      DatabaseName.holly ("orders") ("d") ("2024-1-1") ("2024-12-31") 100
      (by rfl) (by rfl)).1 (Or.inl (by rfl))

/-- C10: whenever the underlying `executeQuery` returns a failure result,
`getTables` and `getTableColumns` return the empty list and
`getTableRowCount` returns 0 — and a backend that always throws is
indistinguishable, through these helpers, from one that returns no rows. -/
theorem c10_schema_helpers_swallow {Row : Type} (backend : Backend Row)
    (bd : Backend DBRow) (maxRows : Nat) (dbName : DatabaseName)
    (tableName : String) (ht : isValidIdentifier tableName = true) :
    ((executeQuery backend maxRows dbName tablesQuery []).success = false →
       getTables backend maxRows dbName = []) ∧
    ((executeQuery backend maxRows dbName
          ("PRAGMA table_info(\"" ++ tableName ++ "\")") []).success = false →
       getTableColumns backend maxRows dbName tableName = .ok []) ∧
    ((executeQuery bd maxRows dbName
          ("SELECT COUNT(*) as count FROM \"" ++ tableName ++ "\"") []).success = false →
       getTableRowCount bd maxRows dbName tableName = .ok (some (Value.num 0))) ∧
    (∀ m, getTables (failBackend Row m) maxRows dbName =
       getTables (constBackend ([] : List Row)) maxRows dbName) ∧
    (∀ m, getTableColumns (failBackend Row m) maxRows dbName tableName =
       getTableColumns (constBackend ([] : List Row)) maxRows dbName tableName) ∧
    (∀ m, getTableRowCount (failBackend DBRow m) maxRows dbName tableName =
       getTableRowCount (constBackend ([] : List DBRow)) maxRows dbName tableName) := by
  refine ⟨?_, ?_, ?_, ?_, ?_, ?_⟩
  · intro h
    simp [getTables, h]
  · intro h
    simp [getTableColumns, ht, h]
  · intro h
    simp [getTableRowCount, ht, h]
  · intro m
    unfold getTables
    cases hv : validateReadOnlyQuery tablesQuery <;>
      simp [executeQuery, hv, failBackend, constBackend]
  · intro m
    unfold getTableColumns
    cases hv : validateReadOnlyQuery ("PRAGMA table_info(\"" ++ tableName ++ "\")") <;>
      simp [executeQuery, hv, failBackend, constBackend, ht]
  · intro m
    unfold getTableRowCount
    cases hv : validateReadOnlyQuery ("SELECT COUNT(*) as count FROM \"" ++ tableName ++ "\"") <;>
      simp [executeQuery, hv, failBackend, constBackend, ht]

/-- C10 witness: against an always-throwing backend the helpers report an
empty database, a column-less table and a zero row count. -/
theorem c10_schema_helpers_swallow_witness :
    getTables (failBackend DBRow ("D1 connection lost")) 1000
        DatabaseName.historical = [] ∧
    getTableColumns (failBackend DBRow ("D1 connection lost")) 1000
        DatabaseName.historical ("orders") = .ok [] ∧
    getTableRowCount (failBackend DBRow ("D1 connection lost")) 1000
        DatabaseName.historical ("orders") = .ok (some (Value.num 0)) :=
  ⟨(c10_schema_helpers_swallow (failBackend DBRow ("D1 connection lost"))
      (failBackend DBRow ("D1 connection lost")) 1000 DatabaseName.historical
      ("orders") (by rfl)).1 (by rfl),
   (c10_schema_helpers_swallow (failBackend DBRow ("D1 connection lost"))
      (failBackend DBRow ("D1 connection lost")) 1000 DatabaseName.historical
      ("orders") (by rfl)).2.1 (by rfl),
   (c10_schema_helpers_swallow (failBackend DBRow ("D1 connection lost"))
      (failBackend DBRow ("D1 connection lost")) 1000 DatabaseName.historical
      ("orders") (by rfl)).2.2.1 (by rfl)⟩

end MunicipalMCP
